import Mathlib

/-!
Shallow embedding of the core transport logic of `src/tpm_i2c_atmel.c`
(ATMEL AT97SC3204T I2C TPM driver): the bounded-retry bus read
`tpm_i2c_read`, the two-phase read path `tpm_tis_i2c_read`, and the
write path `tpm_tis_i2c_write`.

Modelling conventions:
- The 1024-byte `tpm_dev.buf` (`u8 buf[TPM_BUFSIZE]`) is modelled as a
  total function `Buf := Nat → Nat` giving the byte at each index; a raw
  bus read of `len` bytes overwrites indices `0 .. len-1` with the bytes
  the device transmits (a failed transfer moves no data).  An access of
  length `len` touches indices up to `len - 1`, so a requested length
  `len > TPM_BUFSIZE` is an access past the array's capacity.
- Machine integers are `Nat`/`Int`; the `u8` return type of
  `tpm_i2c_read` is modelled explicitly as reduction modulo 256 of the
  `int`-valued return expression.
- The device's response is a byte stream `dev : Buf`; per the hardware
  quirk preserved by the driver, the second-phase read re-reads the full
  response from the start, so both phases read prefixes of `dev`.
- The results of the `i2c_transfer` calls inside one `tpm_i2c_read` are
  a schedule `xfer : Nat → Int` (result of the k-th attempt).  At the
  read-path level, whether each of the two `tpm_i2c_read` calls managed
  to move data within its retry budget is abstracted as the booleans
  `hdrOk` and `bodyOk`; the read path ignores the returned status either
  way, exactly as the C code ignores `rc`.
-/

/-- Capacity of the shared device buffer, `#define TPM_BUFSIZE 1024`
(line 52 of `tpm_i2c_atmel.c`). -/
def TPM_BUFSIZE : Nat := 1024

/-- Modelled from the spec: `TPM_HEADER_SIZE` is defined in `tpm.h`,
which is not part of the provided source; the spec fixes
`HEADER_SIZE = 6` bytes (§3 ResponseHeader, §6 protocol constants). -/
def TPM_HEADER_SIZE : Nat := 6

/-- Linux errno value `EFAULT = 14` (bad address / copy failure). -/
def EFAULT : Int := 14

/-- Linux errno value `EIO = 5` (I/O error). -/
def EIOerr : Int := 5

/-- Linux errno value `EINVAL = 22` (invalid argument). -/
def EINVAL : Int := 22

/-- Linux errno value `EOPNOTSUPP = 95` (operation not supported). -/
def EOPNOTSUPP : Int := 95

/-- Retry budget of the polling loop, `const u32 trapdoor_limit = 60000`
(line 79). -/
def trapdoor_limit : Nat := 60000

/-- The device buffer (and byte streams generally): byte value at each
index. -/
abbrev Buf := Nat → Nat

/-- Effect of `memset(tpm_dev.buf, 0x00, TPM_BUFSIZE)`: every index
reads as zero. -/
def memsetZero : Buf := fun _ => 0

/-- Effect on the buffer of one raw bus read transfer of `len` bytes
(the `i2c_msg` with flag `I2C_M_RD`): if the transfer succeeded (`ok`),
indices `0 .. len-1` now hold the device's bytes; otherwise the buffer
is unchanged. -/
def busFill (buf : Buf) (dev : Buf) (len : Nat) (ok : Bool) : Buf :=
  if ok then fun i => if i < len then dev i else buf i else buf

/-- The retry loop of `tpm_i2c_read` (lines 91-97):
`do { rc = i2c_transfer(..); if (rc > 0) break; trapdoor++; msleep(5); }
while (trapdoor < trapdoor_limit);`.
`t` is the current value of `trapdoor` (also the index of the attempt
about to run); `fuel` bounds the recursion and is chosen large enough
that the fuel-exhausted base case coincides with the C loop's exit.
Returns `(rc, trapdoor, attempts)`: the final `rc`, the final value of
`trapdoor`, and the number of `i2c_transfer` calls performed. -/
def retryLoop (xfer : Nat → Int) (limit : Nat) (t : Nat) :
    Nat → Int × Nat × Nat
  | 0 =>
    if 0 < xfer t then (xfer t, t, t + 1) else (xfer t, t + 1, t + 1)
  | fuel + 1 =>
    if 0 < xfer t then (xfer t, t, t + 1)
    else if t + 1 < limit then retryLoop xfer limit (t + 1) fuel
    else (xfer t, t + 1, t + 1)

/-- Value of the return expression of `tpm_i2c_read` (lines 75-107),
before the implicit conversion to the declared `u8` return type:
`-EOPNOTSUPP` when the adapter lacks `master_xfer`, `-EFAULT` when the
retry budget is exhausted, otherwise the successful attempt's `rc`. -/
def tpm_i2c_read_rc (supported : Bool) (xfer : Nat → Int) : Int :=
  if supported then
    if trapdoor_limit ≤ (retryLoop xfer trapdoor_limit 0 trapdoor_limit).2.1
    then -EFAULT
    else (retryLoop xfer trapdoor_limit 0 trapdoor_limit).1
  else -EOPNOTSUPP

/-- Number of `i2c_transfer` calls `tpm_i2c_read` performs (0 when the
adapter lacks `master_xfer`, since the function returns before the
loop). -/
def tpm_i2c_read_attempts (supported : Bool) (xfer : Nat → Int) : Nat :=
  if supported then (retryLoop xfer trapdoor_limit 0 trapdoor_limit).2.2
  else 0

/-- The value the caller of `tpm_i2c_read` actually receives: the return
expression converted to the declared `u8` type, i.e. reduced modulo
256 into `0 .. 255`. -/
def tpm_i2c_read_u8 (supported : Bool) (xfer : Nat → Int) : Nat :=
  ((tpm_i2c_read_rc supported xfer) % 256).toNat

/-- Length-field decode of `tpm_tis_i2c_read` (lines 120-122):
`expected = buf[4]; expected = expected << 8; expected += buf[5];`. -/
def decode_expected (buf : Buf) : Nat :=
  (buf 4) <<< 8 + buf 5

/-- Buffer contents after the header phase of `tpm_tis_i2c_read`
(lines 116-117): `memset` to zero, then a bus read of
`TPM_HEADER_SIZE` bytes that fills the prefix iff it succeeded. -/
def read_buf1 (dev : Buf) (hdrOk : Bool) : Buf :=
  busFill memsetZero dev TPM_HEADER_SIZE hdrOk

/-- The decoded `expected` length as a function of the device bytes and
the header-phase outcome. -/
def read_expected (dev : Buf) (hdrOk : Bool) : Nat :=
  decode_expected (read_buf1 dev hdrOk)

/-- Observable outcome of one `tpm_tis_i2c_read` call.
`busReads` lists the lengths requested from the bus, in order; `buf` is
the device buffer afterwards; `copyLen` is the byte count passed to
`copy_to_user`; `ret` is the returned value (assuming, when `copyOk`,
that `copy_to_user` succeeded). -/
structure ReadResult where
  busReads : List Nat
  buf : Buf
  copyLen : Nat
  ret : Int

/-- The read path `tpm_tis_i2c_read` (lines 109-145).  `count` is the
`size_t count` file-read argument (never used by the body); `prev` is
the buffer content on entry (immediately erased by `memset`); `dev` the
device's response stream; `hdrOk`/`bodyOk` whether the two
`tpm_i2c_read` calls moved data; `copyOk` whether `copy_to_user`
succeeded.  Note the code never checks `expected` against
`TPM_BUFSIZE` before using it as a transfer and copy length. -/
def tpm_tis_i2c_read (count : Nat) (prev : Buf) (dev : Buf)
    (hdrOk bodyOk copyOk : Bool) : ReadResult :=
  let buf1 := read_buf1 dev hdrOk
  let expected := read_expected dev hdrOk
  if expected ≤ TPM_HEADER_SIZE then
    { busReads := [TPM_HEADER_SIZE]
      buf := buf1
      copyLen := expected
      ret := if copyOk then (expected : Int) else -EFAULT }
  else
    { busReads := [TPM_HEADER_SIZE, expected]
      buf := busFill buf1 dev expected bodyOk
      copyLen := expected
      ret := if copyOk then (expected : Int) else -EFAULT }

/-- Observable outcome of one `tpm_tis_i2c_write` call. `busWrites`
lists the lengths of the raw write transfers attempted. -/
structure WriteResult where
  busWrites : List Nat
  buf : Buf
  ret : Int

/-- The write path `tpm_tis_i2c_write` (lines 147-175).  `prev` is the
buffer content on entry, `user` the caller's payload bytes, `count` the
requested byte count, `copyOk` whether `copy_from_user` succeeded, and
`xferRc` the result of the single `i2c_transfer` write. -/
def tpm_tis_i2c_write (prev : Buf) (user : Buf) (count : Nat)
    (copyOk : Bool) (xferRc : Int) : WriteResult :=
  if TPM_BUFSIZE < count then
    { busWrites := [], buf := prev, ret := -EINVAL }
  else
    let buf1 : Buf := fun i => if i < count then user i else 0
    if copyOk then
      { busWrites := [count]
        buf := buf1
        ret := if xferRc ≤ 0 then -EIOerr else (count : Int) }
    else
      { busWrites := [], buf := buf1, ret := -EFAULT }

/-! ### Helper lemmas about the retry loop -/

/-- If every attempt in `t .. limit-1` fails and the fuel covers the
remaining iterations, the loop exits with `trapdoor = limit` having
performed `limit` attempts in total (counting from attempt `t`). -/
lemma retryLoop_exhaust (xfer : Nat → Int) (limit : Nat)
    (hall : ∀ i, i < limit → xfer i ≤ 0) :
    ∀ fuel t, t < limit → limit ≤ t + 1 + fuel →
      (retryLoop xfer limit t fuel).2.1 = limit ∧
      (retryLoop xfer limit t fuel).2.2 = limit := by
  intro fuel
  induction fuel with
  | zero =>
    intro t ht hle
    have hx : ¬ 0 < xfer t := not_lt.mpr (hall t ht)
    have hlim : t + 1 = limit := le_antisymm ht (by omega)
    simp [retryLoop, hx, hlim]
  | succ f ih =>
    intro t ht hle
    have hx : ¬ 0 < xfer t := not_lt.mpr (hall t ht)
    by_cases hlt : t + 1 < limit
    · have := ih (t + 1) hlt (by omega)
      simpa [retryLoop, hx, hlt] using this
    · have hlim : t + 1 = limit := le_antisymm ht (by omega)
      simp [retryLoop, hx, hlt, hlim]

/-- If attempt `k` is the first success (all attempts in `t .. k-1`
fail) and the fuel reaches it, the loop breaks at attempt `k` with
`trapdoor = k` after `k + 1` attempts, returning that attempt's `rc`. -/
lemma retryLoop_first_success (xfer : Nat → Int) (limit : Nat) (k : Nat)
    (hk : k < limit) (hpos : 0 < xfer k)
    (hfail : ∀ i, i < k → xfer i ≤ 0) :
    ∀ fuel t, t ≤ k → k ≤ t + fuel →
      retryLoop xfer limit t fuel = (xfer k, k, k + 1) := by
  intro fuel
  induction fuel with
  | zero =>
    intro t htk hkt
    have htk2 : t = k := le_antisymm htk (by omega)
    subst htk2
    simp [retryLoop, hpos]
  | succ f ih =>
    intro t htk hkt
    by_cases heq : t = k
    · subst heq
      simp [retryLoop, hpos]
    · have htlt : t < k := lt_of_le_of_ne htk heq
      have hx : ¬ 0 < xfer t := not_lt.mpr (hfail t htlt)
      have hlt : t + 1 < limit := by omega
      have := ih (t + 1) (by omega) (by omega)
      simpa [retryLoop, hx, hlt] using this

/-! ### Claim theorems -/

/-- C2: the read path decodes `total_length` big-endian from buffer
offsets 4 and 5, as `b4 * 256 + b5`; boundary values `0x00,0x00` give 0
and `0xFF,0xFF` give 65535. -/
theorem header_decode_bigendian (buf : Buf) (b4 b5 : Nat)
    (h4 : buf 4 = b4) (h5 : buf 5 = b5) :
    decode_expected buf = b4 * 256 + b5 ∧
    decode_expected memsetZero = 0 ∧
    decode_expected (fun _ => 255) = 65535 := by
  refine ⟨?_, by decide, by decide⟩
  simp [decode_expected, h4, h5, Nat.shiftLeft_eq]

/-- Witness for C2 at a concrete buffer with bytes 4 and 5 at offsets
4 and 5: the decode yields 4 * 256 + 5 = 1029. -/
theorem header_decode_bigendian_witness :
    decode_expected (fun i => i) = 1029 :=
  ((header_decode_bigendian (fun i => i) 4 5 rfl rfl).1).trans (by norm_num)

/-- C1 evaluation at the failing input: when the device's header bytes
at offsets 4 and 5 are both `0xFF`, the read path issues a second bus
read requesting 65535 bytes into the 1024-byte buffer and passes 65535
bytes to `copy_to_user`, both strictly past `TPM_BUFSIZE`; the code
performs no bound check on the decoded length. -/
theorem read_overflow_ffff :
    (tpm_tis_i2c_read 0 memsetZero (fun _ => 255) true true true).busReads
      = [TPM_HEADER_SIZE, 65535] ∧
    (tpm_tis_i2c_read 0 memsetZero (fun _ => 255) true true true).copyLen
      = 65535 ∧
    TPM_BUFSIZE < 65535 := by
  refine ⟨by decide, by decide, by decide⟩

/-- C3: the two-phase protocol.  When the decoded length is at most
`TPM_HEADER_SIZE`, exactly one bus read (the header read) occurs and the
call returns the decoded length, copying that many bytes to the caller;
when it exceeds `TPM_HEADER_SIZE`, exactly two bus reads occur, the
second requesting the full decoded length from the buffer's start, and
the caller receives the decoded length. -/
theorem read_two_phase_structure (count : Nat) (prev dev : Buf)
    (hdrOk bodyOk : Bool) :
    (read_expected dev hdrOk ≤ TPM_HEADER_SIZE →
       (tpm_tis_i2c_read count prev dev hdrOk bodyOk true).busReads
         = [TPM_HEADER_SIZE] ∧
       (tpm_tis_i2c_read count prev dev hdrOk bodyOk true).ret
         = (read_expected dev hdrOk : Int) ∧
       (tpm_tis_i2c_read count prev dev hdrOk bodyOk true).copyLen
         = read_expected dev hdrOk) ∧
    (TPM_HEADER_SIZE < read_expected dev hdrOk →
       (tpm_tis_i2c_read count prev dev hdrOk bodyOk true).busReads
         = [TPM_HEADER_SIZE, read_expected dev hdrOk] ∧
       (tpm_tis_i2c_read count prev dev hdrOk bodyOk true).ret
         = (read_expected dev hdrOk : Int) ∧
       (tpm_tis_i2c_read count prev dev hdrOk bodyOk true).copyLen
         = read_expected dev hdrOk) := by
  constructor
  · intro h
    simp [tpm_tis_i2c_read, h]
  · intro h
    simp [tpm_tis_i2c_read, not_le.mpr h]

/-- Witness for C3 at the spec's example headers: `[0,0,0,0,0,6]` gives
a single bus read returning 6, and `[0,0,0,0,0,30]` gives two bus reads,
the second of 30 bytes, returning 30. -/
theorem read_two_phase_structure_witness :
    (tpm_tis_i2c_read 0 memsetZero (fun i => if i = 5 then 6 else 0)
      true true true).busReads = [TPM_HEADER_SIZE] ∧
    (tpm_tis_i2c_read 0 memsetZero (fun i => if i = 5 then 6 else 0)
      true true true).ret = 6 ∧
    (tpm_tis_i2c_read 0 memsetZero (fun i => if i = 5 then 30 else 0)
      true true true).busReads = [TPM_HEADER_SIZE, 30] ∧
    (tpm_tis_i2c_read 0 memsetZero (fun i => if i = 5 then 30 else 0)
      true true true).ret = 30 := by
  have e6 : read_expected (fun i => if i = 5 then 6 else 0) true = 6 := by
    decide
  have e30 : read_expected (fun i => if i = 5 then 30 else 0) true = 30 := by
    decide
  have h6 := (read_two_phase_structure 0 memsetZero
    (fun i => if i = 5 then 6 else 0) true true).1 (by rw [e6]; decide)
  have h30 := (read_two_phase_structure 0 memsetZero
    (fun i => if i = 5 then 30 else 0) true true).2 (by rw [e30]; decide)
  refine ⟨h6.1, ?_, ?_, ?_⟩
  · rw [h6.2.1, e6]; rfl
  · rw [h30.1, e30]
  · rw [h30.2.1, e30]; rfl

/-- C8: the read path ignores the caller's `count` argument entirely:
for the same prior buffer and device/bus state, any two requested counts
produce identical bus traffic, buffer contents, copy length and return
value. -/
theorem read_ignores_requested_count (c1 c2 : Nat) (prev dev : Buf)
    (hdrOk bodyOk copyOk : Bool) :
    tpm_tis_i2c_read c1 prev dev hdrOk bodyOk copyOk
      = tpm_tis_i2c_read c2 prev dev hdrOk bodyOk copyOk := rfl

/-- C9: when the header-phase bus read fails (retry budget exhausted,
so no data was moved into the zeroed buffer), the read path ignores the
failure status, decodes a length of 0 from the zero-filled buffer, skips
the second bus read, and returns 0 rather than an error. -/
theorem read_header_fail_returns_zero (count : Nat) (prev dev : Buf)
    (bodyOk : Bool) :
    (tpm_tis_i2c_read count prev dev false bodyOk true).busReads
      = [TPM_HEADER_SIZE] ∧
    (tpm_tis_i2c_read count prev dev false bodyOk true).copyLen = 0 ∧
    (tpm_tis_i2c_read count prev dev false bodyOk true).ret = 0 :=
  ⟨rfl, rfl, rfl⟩

/-- C5: retry semantics of `tpm_i2c_read` (return expression before the
`u8` conversion).  If all of the first 60000 attempts yield a
non-positive result, the loop exhausts its budget and the function
selects `-EFAULT`, having performed exactly 60000 transfers; if attempt
`k` (zero-based, `k < 60000`) is the first to yield a positive result,
the function stops there, returns that attempt's result, and performs
exactly `k + 1` transfers. -/
theorem tpm_i2c_read_retry_spec (xfer : Nat → Int) :
    ((∀ i, i < trapdoor_limit → xfer i ≤ 0) →
       tpm_i2c_read_rc true xfer = -EFAULT ∧
       tpm_i2c_read_attempts true xfer = trapdoor_limit) ∧
    (∀ k, k < trapdoor_limit → 0 < xfer k →
       (∀ i, i < k → xfer i ≤ 0) →
       tpm_i2c_read_rc true xfer = xfer k ∧
       tpm_i2c_read_attempts true xfer = k + 1) := by
  constructor
  · intro hall
    have h := retryLoop_exhaust xfer trapdoor_limit hall trapdoor_limit 0
      (by simp [trapdoor_limit]) (by omega)
    constructor
    · simp [tpm_i2c_read_rc, h.1]
    · simp [tpm_i2c_read_attempts, h.2]
  · intro k hk hpos hfail
    have h := retryLoop_first_success xfer trapdoor_limit k hk hpos hfail
      trapdoor_limit 0 (Nat.zero_le k) (by omega)
    constructor
    · simp [tpm_i2c_read_rc, h, not_le.mpr hk]
    · simp [tpm_i2c_read_attempts, h]

/-- Witness for C5: with every attempt failing (`rc = -1`) the function
selects `-EFAULT` after 60000 attempts; with the first attempt
succeeding (`rc = 1`) it returns 1 after a single attempt. -/
theorem tpm_i2c_read_retry_spec_witness :
    (tpm_i2c_read_rc true (fun _ => -1) = -EFAULT ∧
     tpm_i2c_read_attempts true (fun _ => -1) = trapdoor_limit) ∧
    (tpm_i2c_read_rc true (fun _ => 1) = 1 ∧
     tpm_i2c_read_attempts true (fun _ => 1) = 1) := by
  constructor
  · exact (tpm_i2c_read_retry_spec (fun _ => -1)).1
      (fun i _ => by norm_num)
  · exact (tpm_i2c_read_retry_spec (fun _ => 1)).2 0
      (by decide) (by norm_num) (fun i h => absurd h (Nat.not_lt_zero i))

/-- C10: the declared `u8` return type truncates the error codes of
`tpm_i2c_read` modulo 256 into positive values: a run in which every
attempt fails delivers `(-EFAULT) mod 256 = 242` to the caller, an
unsupported adapter delivers `(-EOPNOTSUPP) mod 256 = 161`, and a run
whose first attempt succeeds with `rc = 242` delivers the very same
value 242, so the failing execution is indistinguishable from a
successful byte count. -/
theorem tpm_i2c_read_u8_truncation :
    tpm_i2c_read_u8 true (fun _ => -1) = 242 ∧
    tpm_i2c_read_u8 false (fun _ => -1) = 161 ∧
    tpm_i2c_read_u8 true (fun _ => 242) = 242 ∧
    0 < (242 : Nat) := by
  have hex := retryLoop_exhaust (fun _ => -1) trapdoor_limit
    (fun i _ => by norm_num) trapdoor_limit 0 (by simp [trapdoor_limit])
    (by omega)
  have hsucc := retryLoop_first_success (fun _ => (242 : Int))
    trapdoor_limit 0 (by decide) (by norm_num)
    (fun i h => absurd h (Nat.not_lt_zero i)) trapdoor_limit 0
    (Nat.le_refl 0) (by omega)
  have hrc : tpm_i2c_read_rc true (fun _ => (242 : Int)) = 242 := by
    unfold tpm_i2c_read_rc
    rw [hsucc]
    decide
  refine ⟨?_, by decide, ?_, by decide⟩
  · simp [tpm_i2c_read_u8, tpm_i2c_read_rc, hex.1, EFAULT]
  · unfold tpm_i2c_read_u8
    rw [hrc]
    decide

/-- C4: the write-size boundary.  A count strictly above `TPM_BUFSIZE`
is rejected with `-EINVAL` before any bus transfer and before the
buffer is touched; a count of exactly `TPM_BUFSIZE` with a successful
copy and a positive transfer result succeeds and returns 1024. -/
theorem write_size_boundary (prev user : Buf) (count : Nat)
    (copyOk : Bool) (xferRc : Int) :
    (TPM_BUFSIZE < count →
       (tpm_tis_i2c_write prev user count copyOk xferRc).ret = -EINVAL ∧
       (tpm_tis_i2c_write prev user count copyOk xferRc).busWrites = [] ∧
       (tpm_tis_i2c_write prev user count copyOk xferRc).buf = prev) ∧
    (0 < xferRc →
       (tpm_tis_i2c_write prev user TPM_BUFSIZE true xferRc).ret
         = (TPM_BUFSIZE : Int) ∧
       (tpm_tis_i2c_write prev user TPM_BUFSIZE true xferRc).busWrites
         = [TPM_BUFSIZE]) := by
  constructor
  · intro h
    simp [tpm_tis_i2c_write, h]
  · intro h
    simp [tpm_tis_i2c_write, not_le.mpr h]

/-- Witness for C4: a write of 1025 bytes is rejected with `-EINVAL`, no
transfer and an untouched buffer; a write of 1024 bytes with transfer
result 1 returns 1024 after one transfer of 1024 bytes. -/
theorem write_size_boundary_witness :
    (tpm_tis_i2c_write memsetZero (fun _ => 7) 1025 true 1).ret = -EINVAL ∧
    (tpm_tis_i2c_write memsetZero (fun _ => 7) 1025 true 1).busWrites = [] ∧
    (tpm_tis_i2c_write memsetZero (fun _ => 7) 1025 true 1).buf = memsetZero ∧
    (tpm_tis_i2c_write memsetZero (fun _ => 7) TPM_BUFSIZE true 1).ret = 1024 := by
  have h1 := (write_size_boundary memsetZero (fun _ => 7) 1025 true 1).1
    (by decide)
  have h2 := (write_size_boundary memsetZero (fun _ => 7) 1025 true 1).2
    (by norm_num)
  exact ⟨h1.1, h1.2.1, h1.2.2, h2.1⟩

/-- C6: all-or-nothing write.  For an accepted count (at most
`TPM_BUFSIZE`) with a successful copy, a non-positive transfer result
makes the call return exactly `-EIO` — a negative value, never a
partial byte count — while a positive transfer result makes it return
exactly the requested count. -/
theorem write_all_or_nothing (prev user : Buf) (count : Nat)
    (xferRc : Int) (hcount : count ≤ TPM_BUFSIZE) :
    (xferRc ≤ 0 →
       (tpm_tis_i2c_write prev user count true xferRc).ret = -EIOerr ∧
       (tpm_tis_i2c_write prev user count true xferRc).ret < 0) ∧
    (0 < xferRc →
       (tpm_tis_i2c_write prev user count true xferRc).ret
         = (count : Int)) := by
  constructor
  · intro h
    constructor
    · simp [tpm_tis_i2c_write, not_lt.mpr hcount, h]
    · simp [tpm_tis_i2c_write, not_lt.mpr hcount, h, EIOerr]
  · intro h
    simp [tpm_tis_i2c_write, not_lt.mpr hcount, not_le.mpr h]

/-- Witness for C6: a 10-byte write whose transfer reports 0 returns
`-EIO`; the same write with transfer result 1 returns 10. -/
theorem write_all_or_nothing_witness :
    (tpm_tis_i2c_write memsetZero (fun _ => 7) 10 true 0).ret = -EIOerr ∧
    (tpm_tis_i2c_write memsetZero (fun _ => 7) 10 true 1).ret = 10 := by
  constructor
  · exact ((write_all_or_nothing memsetZero (fun _ => 7) 10 0
      (by decide)).1 (by norm_num)).1
  · exact (write_all_or_nothing memsetZero (fun _ => 7) 10 1
      (by decide)).2 (by norm_num)

/-- Each byte of a buffer after a raw bus read is either a byte the
device just transmitted or the byte that was already there. -/
lemma busFill_mem (buf dev : Buf) (len : Nat) (ok : Bool) (i : Nat) :
    busFill buf dev len ok i = dev i ∨ busFill buf dev len ok i = buf i := by
  cases ok with
  | false => exact Or.inr rfl
  | true =>
    by_cases hi : i < len
    · exact Or.inl (by simp [busFill, hi])
    · exact Or.inr (by simp [busFill, hi])

/-- C7: buffer zeroing.  The read path's outcome is independent of the
buffer contents on entry (the `memset` erases them), and every byte of
the buffer after a read is either a byte the device transmitted in this
operation or zero — never stale data.  An accepted write leaves the
buffer holding exactly the payload in indices `0 .. count-1` and zeros
everywhere else, and after two consecutive writes the buffer reflects
only the latest payload, with no residue of the earlier one. -/
theorem buffer_zeroing_no_residue (c : Nat) (prevR prevR2 prevW prevW1 : Buf)
    (dev user u1 u2 : Buf) (hdrOk bodyOk copyOk : Bool)
    (count n1 n2 : Nat) (x x1 x2 : Int)
    (hcount : count ≤ TPM_BUFSIZE) (hn2 : n2 ≤ TPM_BUFSIZE) :
    (tpm_tis_i2c_read c prevR dev hdrOk bodyOk copyOk
       = tpm_tis_i2c_read c prevR2 dev hdrOk bodyOk copyOk) ∧
    (∀ i, (tpm_tis_i2c_read c prevR dev hdrOk bodyOk copyOk).buf i = dev i ∨
          (tpm_tis_i2c_read c prevR dev hdrOk bodyOk copyOk).buf i = 0) ∧
    (∀ i, (tpm_tis_i2c_write prevW user count true x).buf i
            = if i < count then user i else 0) ∧
    (∀ i, (tpm_tis_i2c_write (tpm_tis_i2c_write prevW1 u1 n1 true x1).buf
             u2 n2 true x2).buf i = if i < n2 then u2 i else 0) := by
  refine ⟨rfl, ?_, ?_, ?_⟩
  · intro i
    simp only [tpm_tis_i2c_read, read_buf1]
    by_cases h : read_expected dev hdrOk ≤ TPM_HEADER_SIZE
    · rw [if_pos h]
      exact busFill_mem memsetZero dev TPM_HEADER_SIZE hdrOk i
    · rw [if_neg h]
      rcases busFill_mem (busFill memsetZero dev TPM_HEADER_SIZE hdrOk) dev
        (read_expected dev hdrOk) bodyOk i with h1 | h1
      · exact Or.inl h1
      · rcases busFill_mem memsetZero dev TPM_HEADER_SIZE hdrOk i with h2 | h2
        · exact Or.inl (h1.trans h2)
        · exact Or.inr (h1.trans h2)
  · intro i
    simp [tpm_tis_i2c_write, not_lt.mpr hcount]
  · intro i
    simp [tpm_tis_i2c_write, not_lt.mpr hn2]

/-- Witness for C7: after a 4-byte write of sevens the buffer holds 7 at
index 2 and 0 at index 10; writing 3 sevens right after a full 1024-byte
write of nines leaves index 500 at zero; and a read starting from a
dirty buffer equals the same read starting from a zeroed buffer. -/
theorem buffer_zeroing_no_residue_witness :
    (tpm_tis_i2c_write memsetZero (fun _ => 7) 4 true 1).buf 2 = 7 ∧
    (tpm_tis_i2c_write memsetZero (fun _ => 7) 4 true 1).buf 10 = 0 ∧
    (tpm_tis_i2c_write
       (tpm_tis_i2c_write memsetZero (fun _ => 9) 1024 true 1).buf
       (fun _ => 7) 3 true 1).buf 500 = 0 ∧
    tpm_tis_i2c_read 0 (fun _ => 77) (fun _ => 1) true true true
      = tpm_tis_i2c_read 0 memsetZero (fun _ => 1) true true true := by
  have h := buffer_zeroing_no_residue 0 (fun _ => 77) memsetZero memsetZero
    memsetZero (fun _ => 1) (fun _ => 7) (fun _ => 9) (fun _ => 7)
    true true true 4 1024 3 1 1 1 (by decide) (by decide)
  exact ⟨(h.2.2.1 2).trans (by decide), (h.2.2.1 10).trans (by decide),
    (h.2.2.2 500).trans (by decide), h.1⟩
